import Mathlib

/-!
Shallow embedding of the RenderForge core (crates/renderforge-core) used to
check the natural-language specification against the code.

Part 1: `data.rs` — the GL state cache (`GlState`), its diffing mutators,
and the snapshot restore (`set_state`, `Drop for GlStateSnapshot`).

Device interaction is modelled by a trace: every mutator returns the updated
`GlState` together with the list of device calls it issued.  A uniform
change, which in the source performs `GetUniformLocation` (a query) followed
by one `glUniform*` upload, is modelled as a single `uniformUpload` event —
the spec counts it as one logical device upload.

GL handles (`GLuint`) are modelled as `Nat`; `i32` fields as `Int`.
`f32` payloads of uniforms are modelled by integer-valued components
compared by decidable equality, matching the `PartialEq`-based diffing of
the source (IEEE NaN / negative-zero edge cases are not modelled; the
claims quantify over ordinary values).
-/

namespace RenderForge

/-- `DepthFunc` from data.rs. -/
inductive DepthFunc where
  | never | less | equal | lequal | greater | gequal | notEqual | always
deriving DecidableEq, Repr

/-- `CullFace` from data.rs. -/
inductive CullFace where
  | back | front | frontAndBack
deriving DecidableEq, Repr

/-- `Winding` from data.rs. -/
inductive Winding where
  | cw | ccw
deriving DecidableEq, Repr

/-- `BlendFactor` from data.rs. -/
inductive BlendFactor where
  | zero | one | srcColor | oneMinusSrcColor | dstColor | oneMinusDstColor
  | srcAlpha | oneMinusSrcAlpha | dstAlpha | oneMinusDstAlpha
  | constantColor | oneMinusConstantColor | constantAlpha | oneMinusConstantAlpha
deriving DecidableEq, Repr

/-- `SrcRgb` from data.rs: a `BlendFactor` or the extra `SrcAlphaSaturate`. -/
inductive SrcRgb where
  | factor (f : BlendFactor)
  | srcAlphaSaturate
deriving DecidableEq, Repr

/-- `RgbEquation` from data.rs. -/
inductive RgbEquation where
  | add | subtract | reverseSubtract | min | max
deriving DecidableEq, Repr

/-- `AlphaEquation` from data.rs. -/
inductive AlphaEquation where
  | add | subtract | reverseSubtract | min | max
deriving DecidableEq, Repr

/-- `StencilFunc` from data.rs. -/
inductive StencilFunc where
  | never | less | lequal | greater | gequal | equal | notEqual | always
deriving DecidableEq, Repr

/-- `StencilOp` from data.rs. -/
inductive StencilOp where
  | keep | zero | replace | incr | incrWrap | decr | decrWrap | invert
deriving DecidableEq, Repr

/-- `StencilFace` from data.rs. -/
inductive StencilFace where
  | front | back | frontAndBack
deriving DecidableEq, Repr

/-- `DepthState` from data.rs. -/
structure DepthState where
  enabled : Bool
  func : DepthFunc
  mask : Bool
deriving DecidableEq, Repr

/-- `CullState` from data.rs. -/
structure CullState where
  enabled : Bool
  face : CullFace
  front_face : Winding
deriving DecidableEq, Repr

/-- `BlendState` from data.rs. -/
structure BlendState where
  enabled : Bool
  src_rgb : SrcRgb
  src_alpha : BlendFactor
  dst_rgb : BlendFactor
  dst_alpha : BlendFactor
  rgb_equation : RgbEquation
  alpha_equation : AlphaEquation
deriving DecidableEq, Repr

/-- `StencilState` from data.rs (`mask` is a `GLuint`, modelled as `Nat`). -/
structure StencilState where
  enabled : Bool
  face : StencilFace
  func : StencilFunc
  reference : Int
  mask : Nat
  fail_op : StencilOp
  z_fail_op : StencilOp
  z_pass_op : StencilOp
deriving DecidableEq, Repr

/-- `RasterState` from data.rs (`[i32; 4]` boxes as 4-tuples of `Int`). -/
structure RasterState where
  scissor_test : Bool
  scissor_box : Int × Int × Int × Int
  viewport : Int × Int × Int × Int
deriving DecidableEq, Repr

/-- `GLUniform` from data.rs.  Float / vector / matrix payloads are
modelled by integer-valued components; the source only ever compares them
with `PartialEq` before deciding whether to upload. -/
inductive GLUniform where
  | mat4 (m : List Int)
  | f32 (x : Int)
  | vec2 (x y : Int)
  | vec3 (x y z : Int)
  | vec4 (x y z w : Int)
  | i32 (x : Int)
  | ivec2 (x y : Int)
  | ivec3 (x y z : Int)
  | ivec4 (x y z w : Int)
deriving DecidableEq, Repr

/-- One device call issued by a `GlState` mutator.  `uniformUpload` stands
for the `GetUniformLocation` + `glUniform*` pair of `set_uniform`. -/
inductive GlCall where
  | enableDepthTest | disableDepthTest
  | depthMask (b : Bool)
  | enableCull | disableCull
  | cullFace (f : CullFace)
  | frontFace (w : Winding)
  | enableBlend | disableBlend
  | blendFuncSeparate (a : SrcRgb) (b c d : BlendFactor)
  | blendFuncRgb (a : SrcRgb) (b : BlendFactor)
  | blendEquationSeparate (r : RgbEquation) (a : AlphaEquation)
  | useProgram (p : Nat)
  | bindVertexArray (v : Nat)
  | bindFramebuffer (f : Nat)
  | uniformUpload (prog : Nat) (uname : String) (v : GLUniform)
deriving DecidableEq, Repr

/-- Association-list lookup used to model `HashMap` reads. -/
def lookupA {κ ν : Type} [DecidableEq κ] (k : κ) : List (κ × ν) → Option ν
  | [] => none
  | (k', v) :: rest => if k' = k then some v else lookupA k rest

/-- Association-list insert-or-update used to model `HashMap::insert`. -/
def updateA {κ ν : Type} [DecidableEq κ] (k : κ) (v : ν) : List (κ × ν) → List (κ × ν)
  | [] => [(k, v)]
  | (k', v') :: rest => if k' = k then (k, v) :: rest else (k', v') :: updateA k v rest

/-- `GlState` from data.rs.  The `uniforms` field models the
`HashMap<GLuint, HashMap<String, GLUniform>>` per-program uniform cache as
an association list (map iteration order is never observed by the code).
The pixel-irrelevant `SamplerState` (an empty struct) is omitted. -/
structure GlState where
  depth : DepthState
  cull : CullState
  blend : BlendState
  stencil : StencilState
  raster : RasterState
  vao : Nat
  fbo : Nat
  program : Nat
  framebuffer : Nat
  uniforms : List (Nat × List (String × GLUniform))
deriving DecidableEq, Repr

/-- `GlState::new` from data.rs. -/
def GlState.new : GlState where
  depth := { enabled := false, func := .less, mask := true }
  cull := { enabled := false, face := .back, front_face := .ccw }
  blend := { enabled := false, src_rgb := .factor .one, src_alpha := .one,
             dst_rgb := .zero, dst_alpha := .zero,
             rgb_equation := .add, alpha_equation := .add }
  stencil := { enabled := false, func := .always, reference := 0,
               mask := 4294967295, fail_op := .keep, z_fail_op := .keep,
               z_pass_op := .keep, face := .frontAndBack }
  raster := { scissor_test := false, scissor_box := (0, 0, 8096, 8096),
              viewport := (0, 0, 8096, 8096) }
  vao := 0
  fbo := 0
  program := 0
  framebuffer := 0
  uniforms := []

/-- `GlState::depth_test` from data.rs. -/
def GlState.depth_test (s : GlState) (enabled : Bool) : GlState × List GlCall :=
  if s.depth.enabled ≠ enabled then
    ({ s with depth.enabled := enabled },
     [if enabled then .enableDepthTest else .disableDepthTest])
  else (s, [])

/-- `GlState::depth_mask` from data.rs. -/
def GlState.depth_mask (s : GlState) (enabled : Bool) : GlState × List GlCall :=
  if s.depth.mask ≠ enabled then
    ({ s with depth.mask := enabled }, [.depthMask enabled])
  else (s, [])

/-- `GlState::culling` from data.rs. -/
def GlState.culling (s : GlState) (enabled : Bool) : GlState × List GlCall :=
  if s.cull.enabled ≠ enabled then
    ({ s with cull.enabled := enabled },
     [if enabled then .enableCull else .disableCull])
  else (s, [])

/-- `GlState::cull_face` from data.rs. -/
def GlState.cull_face (s : GlState) (face : CullFace) : GlState × List GlCall :=
  if s.cull.face ≠ face then
    ({ s with cull.face := face }, [.cullFace face])
  else (s, [])

/-- `GlState::front_face` from data.rs. -/
def GlState.front_face (s : GlState) (winding : Winding) : GlState × List GlCall :=
  if s.cull.front_face ≠ winding then
    ({ s with cull.front_face := winding }, [.frontFace winding])
  else (s, [])

/-- `GlState::blending` from data.rs. -/
def GlState.blending (s : GlState) (enabled : Bool) : GlState × List GlCall :=
  if s.blend.enabled ≠ enabled then
    ({ s with blend.enabled := enabled },
     [if enabled then .enableBlend else .disableBlend])
  else (s, [])

/-- `GlState::blend_func_separate` from data.rs. -/
def GlState.blend_func_separate (s : GlState) (src_rgb : SrcRgb)
    (src_alpha dst_rgb dst_alpha : BlendFactor) : GlState × List GlCall :=
  if s.blend.src_rgb ≠ src_rgb ∨ s.blend.src_alpha ≠ src_alpha
      ∨ s.blend.dst_rgb ≠ dst_rgb ∨ s.blend.dst_alpha ≠ dst_alpha then
    ({ s with blend.src_rgb := src_rgb, blend.src_alpha := src_alpha,
              blend.dst_rgb := dst_rgb, blend.dst_alpha := dst_alpha },
     [.blendFuncSeparate src_rgb src_alpha dst_rgb dst_alpha])
  else (s, [])

/-- `GlState::blend_equation` from data.rs. -/
def GlState.blend_equation (s : GlState) (rgb_eq : RgbEquation)
    (alpha_eq : AlphaEquation) : GlState × List GlCall :=
  if s.blend.rgb_equation ≠ rgb_eq ∨ s.blend.alpha_equation ≠ alpha_eq then
    ({ s with blend.rgb_equation := rgb_eq, blend.alpha_equation := alpha_eq },
     [.blendEquationSeparate rgb_eq alpha_eq])
  else (s, [])

/-- `GlState::blend_func` from data.rs: separate factors, then equations. -/
def GlState.blend_func (s : GlState) (src_rgb : SrcRgb)
    (src_alpha dst_rgb dst_alpha : BlendFactor)
    (rgb_eq : RgbEquation) (alpha_eq : AlphaEquation) : GlState × List GlCall :=
  let (s1, c1) := s.blend_func_separate src_rgb src_alpha dst_rgb dst_alpha
  let (s2, c2) := s1.blend_equation rgb_eq alpha_eq
  (s2, c1 ++ c2)

/-- `GlState::blend_func_both` from data.rs. -/
def GlState.blend_func_both (s : GlState) (src dst : BlendFactor) :
    GlState × List GlCall :=
  s.blend_func_separate (.factor src) src dst dst

/-- `GlState::blend_func_rgb` from data.rs. -/
def GlState.blend_func_rgb (s : GlState) (src_rgb : SrcRgb) (dst_rgb : BlendFactor) :
    GlState × List GlCall :=
  if s.blend.src_rgb ≠ src_rgb ∨ s.blend.dst_rgb ≠ dst_rgb then
    ({ s with blend.src_rgb := src_rgb, blend.dst_rgb := dst_rgb },
     [.blendFuncRgb src_rgb dst_rgb])
  else (s, [])

/-- `GlState::use_program` from data.rs. -/
def GlState.use_program (s : GlState) (program : Nat) : GlState × List GlCall :=
  if s.program ≠ program then
    ({ s with program := program }, [.useProgram program])
  else (s, [])

/-- `GlState::bind_vao` from data.rs. -/
def GlState.bind_vao (s : GlState) (vao : Nat) : GlState × List GlCall :=
  if s.vao ≠ vao then
    ({ s with vao := vao }, [.bindVertexArray vao])
  else (s, [])

/-- `GlState::bind_fbo` from data.rs.  NOTE: the source compares against
the cached `self.fbo` and issues `glBindFramebuffer` on difference, but —
unlike every other mutator — never assigns `self.fbo = fbo`, so the cache
is not updated.  The embedding reproduces this faithfully. -/
def GlState.bind_fbo (s : GlState) (fbo : Nat) : GlState × List GlCall :=
  if s.fbo ≠ fbo then
    (s, [.bindFramebuffer fbo])
  else (s, [])

/-- `GlState::set_uniform` from data.rs.  The source first ensures
`self.uniforms` has an entry for the current program, then looks the name
up in that program's map: on a hit with an equal value it does nothing; on
a hit with a different value, or on a miss, it stores the value and
uploads it (`GetUniformLocation` + `upload`, one `uniformUpload` event). -/
def GlState.set_uniform (s : GlState) (uname : String) (value : GLUniform) :
    GlState × List GlCall :=
  let progUniforms := (lookupA s.program s.uniforms).getD []
  match lookupA uname progUniforms with
  | some v =>
    if v ≠ value then
      ({ s with uniforms :=
           updateA s.program (updateA uname value progUniforms) s.uniforms },
       [.uniformUpload s.program uname value])
    else
      -- value already cached for this (program, name): no device interaction
      (s, [])
  | none =>
      ({ s with uniforms :=
           updateA s.program (updateA uname value progUniforms) s.uniforms },
       [.uniformUpload s.program uname value])

/-- `GlState::set_state` from data.rs: the restore path used by
`Drop for GlStateSnapshot`.  It re-applies, through the diffing setters and
in source order: program, fbo, vao, blend function/equations, blend enable,
depth test, depth mask, cull enable, cull face — and nothing else (the
source ends with `// TODO: set the rest of the states`; in particular the
per-program uniform cache, `front_face`, stencil and raster state are
never restored). -/
def GlState.set_state (s : GlState) (t : GlState) : GlState × List GlCall :=
  let (s1, c1) := s.use_program t.program
  let (s2, c2) := s1.bind_fbo t.fbo
  let (s3, c3) := s2.bind_vao t.vao
  let (s4, c4) := s3.blend_func t.blend.src_rgb t.blend.src_alpha
      t.blend.dst_rgb t.blend.dst_alpha t.blend.rgb_equation t.blend.alpha_equation
  let (s5, c5) := s4.blending t.blend.enabled
  let (s6, c6) := s5.depth_test t.depth.enabled
  let (s7, c7) := s6.depth_mask t.depth.mask
  let (s8, c8) := s7.culling t.cull.enabled
  let (s9, c9) := s8.cull_face t.cull.face
  (s9, c1 ++ c2 ++ c3 ++ c4 ++ c5 ++ c6 ++ c7 ++ c8 ++ c9)

/-- `GlStateManager::snapshot` + `Drop for GlStateSnapshot` from data.rs:
the snapshot saves a copy of the state at creation; dropping it runs
`set_state` with that saved copy against the current (possibly mutated)
shared state. -/
def snapshotRelease (save current : GlState) : GlState × List GlCall :=
  current.set_state save

/-!
Part 2: `atlas.rs` — atlas building.

`AtlasTextureIdentifier` wraps a `String`; image pixel contents are not
relevant to any placement/identity claim, so a decoded `DynamicImage` is
modelled by its `dimensions()` only (the page pixel buffer and
`imageops::overlay` compositing are likewise not modelled).  Device
texture uploads are counted: `AtlasBuilder.build` returns the number of
`upload_image` calls it performed alongside its result, and the device
texture handle (generated by the driver in `upload_image`) is modelled as
the constant 0.
-/

/-- `AtlasTextureIdentifier` from atlas.rs: a newtype over `String`. -/
abbrev AtlasTextureIdentifier := String

/-- An `image::DynamicImage`, modelled by its `dimensions()` (`u32` pair,
as `Nat`). -/
structure Image where
  width : Nat
  height : Nat
deriving DecidableEq, Repr

/-- `MinFilter` from texture.rs. -/
inductive MinFilter where
  | linearLinear | linearNearest | nearestLinear | nearestNearest | nearest | linear
deriving DecidableEq, Repr

/-- `MagFilter` from texture.rs. -/
inductive MagFilter where
  | nearest | linear
deriving DecidableEq, Repr

/-- `AtlasError` from errors.rs. -/
inductive AtlasError where
  | textureOverflow
  | duplicateId (id : String)
deriving DecidableEq, Repr

/-- Modelled from the spec: the Rect Packer configuration.  The packer is
the external `rect_packer` crate (`rect_packer::Config`), whose
implementation is not part of this repository's sources; spec §4.1 gives
its contract: page width/height plus border padding (reserved once around
the page edge) and rectangle padding (reserved around every placed
rectangle).  The source fills `Config` from the builder's `u32` values via
`as i32` casts; sizes are modelled as `Nat` (pages of ≥ 2^31 pixels on a
side are out of scope). -/
structure PackerConfig where
  width : Nat
  height : Nat
  border_padding : Nat
  rectangle_padding : Nat
deriving DecidableEq, Repr

/-- A placement rectangle returned by the packer (`rect_packer::Rect`). -/
structure PackRect where
  x : Nat
  y : Nat
  width : Nat
  height : Nat
deriving DecidableEq, Repr

/-- Modelled from the spec: the state of the Rect Packer
(`rect_packer::Packer`, external crate).  Spec §4.1 requires a
deterministic greedy shelf/guillotine strategy; we model a standard shelf
packer: the current shelf's cursor position and height. -/
structure Packer where
  config : PackerConfig
  cursorX : Nat
  cursorY : Nat
  shelfH : Nat
deriving DecidableEq, Repr

/-- Modelled from the spec: a fresh packer starts at the border-padding
corner of the page. -/
def Packer.new (c : PackerConfig) : Packer :=
  { config := c, cursorX := c.border_padding, cursorY := c.border_padding, shelfH := 0 }

/-- Modelled from the spec: one placement attempt of the shelf packer.
A rectangle is placed at the cursor if it fits there (keeping
border padding clear of the right and bottom page edges); otherwise a new
shelf is opened below the current one (rectangle padding between shelves)
and the rectangle is placed at its left edge if it fits; otherwise the
request does not fit.  `can_pack` and `pack` of the crate are this same
computation (`pack` is only called by the source after a successful
`can_pack`). -/
def Packer.tryPack (p : Packer) (w h : Nat) : Option (PackRect × Packer) :=
  let c := p.config
  if p.cursorX + w + c.border_padding ≤ c.width
      ∧ p.cursorY + h + c.border_padding ≤ c.height then
    some ({ x := p.cursorX, y := p.cursorY, width := w, height := h },
          { p with cursorX := p.cursorX + w + c.rectangle_padding,
                   shelfH := Nat.max p.shelfH h })
  else
    let y := p.cursorY + p.shelfH + c.rectangle_padding
    if c.border_padding + w + c.border_padding ≤ c.width
        ∧ y + h + c.border_padding ≤ c.height then
      some ({ x := c.border_padding, y := y, width := w, height := h },
            { config := c, cursorX := c.border_padding + w + c.rectangle_padding,
              cursorY := y, shelfH := h })
    else none

/-- Modelled from the spec: `Packer::can_pack`. -/
def Packer.can_pack (p : Packer) (w h : Nat) : Bool :=
  (p.tryPack w h).isSome

/-- `AtlasRect` from atlas.rs: the absolute pixel rectangle
`(x, y, width, height)` and the owning page's size, stored as a pair of
floats at construction time (modelled as exact rationals; the page sizes
and coordinates involved are far below 2^24, where `u32 as f32` and f32
division on such inputs are exact for the inputs of interest). -/
structure AtlasRect where
  rect : Nat × Nat × Nat × Nat
  size : Rat × Rat
deriving DecidableEq, Repr

/-- `AtlasRect::new` from atlas.rs. -/
def AtlasRect.new (size : Nat × Nat) (rect : Nat × Nat × Nat × Nat) : AtlasRect :=
  { rect := rect, size := ((size.1 : Rat), (size.2 : Rat)) }

/-- `AtlasRect::coords` from atlas.rs. -/
def AtlasRect.coords (r : AtlasRect) : Nat × Nat × Nat × Nat :=
  r.rect

/-- `AtlasRect::uvs` from atlas.rs: componentwise
`(rect.0 / size.0, rect.1 / size.1, rect.2 / size.0, rect.3 / size.1)` —
note the third and fourth components divide the rectangle's *width* and
*height* (`rect.2`, `rect.3`), exactly as the source does. -/
def AtlasRect.uvs (r : AtlasRect) : Rat × Rat × Rat × Rat :=
  ((r.rect.1 : Rat) / r.size.1,
   (r.rect.2.1 : Rat) / r.size.2,
   (r.rect.2.2.1 : Rat) / r.size.1,
   (r.rect.2.2.2 : Rat) / r.size.2)

/-- `Atlas` from atlas.rs.  `position_data` models the
`HashMap<AtlasTextureIdentifier, AtlasRect>` as an association list
(iteration order is never observed); `tex_id` is the device-generated
handle, modelled as 0. -/
structure Atlas where
  tex_id : Nat
  position_data : List (AtlasTextureIdentifier × AtlasRect)
  size : Nat × Nat
deriving DecidableEq, Repr

/-- `Atlas::has_texture` from atlas.rs. -/
def Atlas.has_texture (a : Atlas) (id : AtlasTextureIdentifier) : Bool :=
  (lookupA id a.position_data).isSome

/-- `Atlas::get_rect` from atlas.rs. -/
def Atlas.get_rect (a : Atlas) (id : AtlasTextureIdentifier) : Option AtlasRect :=
  lookupA id a.position_data

/-- `Atlas::get_id` from atlas.rs. -/
def Atlas.get_id (a : Atlas) : Nat :=
  a.tex_id

/-- `Atlas::get_size` from atlas.rs. -/
def Atlas.get_size (a : Atlas) : Nat × Nat :=
  a.size

/-- `AtlasBuilder` from atlas.rs (its page-sized `RgbaImage` staging
buffer holds pixel data only and is not modelled). -/
structure AtlasBuilder where
  size : Nat × Nat
  texture_queue : List (AtlasTextureIdentifier × Image)
  border_padding : Nat
  rectangle_padding : Nat
  min_filter : MinFilter
  mag_filter : MagFilter
deriving DecidableEq, Repr

/-- `AtlasBuilder::new` from atlas.rs. -/
def AtlasBuilder.new (size : Nat × Nat) (border_padding rectangle_padding : Nat)
    (min_filter : MinFilter) (mag_filter : MagFilter) : AtlasBuilder :=
  { size := size, texture_queue := [], border_padding := border_padding,
    rectangle_padding := rectangle_padding, min_filter := min_filter,
    mag_filter := mag_filter }

/-- `AtlasBuilder::add` from atlas.rs: scan the queue for the identifier;
fail with `DuplicateId` if present (leaving the queue untouched), else
push the pair. -/
def AtlasBuilder.add (b : AtlasBuilder) (id : AtlasTextureIdentifier) (img : Image) :
    Except AtlasError AtlasBuilder :=
  if b.texture_queue.any (fun t => t.1 == id) then
    .error (.duplicateId id)
  else
    .ok { b with texture_queue := b.texture_queue ++ [(id, img)] }

/-- The u32 pixel area key used by `AtlasBuilder::tex_sorter`:
`ad.0 * ad.1` is a `u32` multiplication, so it wraps modulo 2^32. -/
def areaKey (t : AtlasTextureIdentifier × Image) : Nat :=
  (t.2.width * t.2.height) % 4294967296

/-- Insertion step of the stable descending-by-area sort: the new element
goes in front of the first element whose key is ≤ its own (so equal-area
elements that were earlier in the queue stay earlier). -/
def insertByAreaDesc (x : AtlasTextureIdentifier × Image) :
    List (AtlasTextureIdentifier × Image) → List (AtlasTextureIdentifier × Image)
  | [] => [x]
  | y :: ys =>
    if areaKey y ≤ areaKey x then x :: y :: ys else y :: insertByAreaDesc x ys

/-- `textures.sort_by(AtlasBuilder::tex_sorter)` from atlas.rs:
Rust's `sort_by` is a stable sort and `tex_sorter` compares by the u32
pixel area, reversed (descending).  The result of a stable sort under a
fixed comparator is unique, so it is modelled by a stable insertion
sort with the same key. -/
def sortByAreaDesc : List (AtlasTextureIdentifier × Image) →
    List (AtlasTextureIdentifier × Image)
  | [] => []
  | x :: xs => insertByAreaDesc x (sortByAreaDesc xs)

/-- The packing walk of `AtlasBuilder::build` from atlas.rs: for each
queued texture in sorted order, first re-check the identifier against the
rectangles placed so far (`DuplicateId` if already placed), then try the
packer: on success record the rectangle (the source also composites the
pixels, not modelled); on failure either abort with `TextureOverflow`
(strict) or divert the texture to the overflow list. -/
def buildGo (pageSize : Nat × Nat) (strict : Bool) :
    List (AtlasTextureIdentifier × Image) → Packer →
    List (AtlasTextureIdentifier × AtlasRect) →
    List (AtlasTextureIdentifier × Image) →
    Except AtlasError
      (List (AtlasTextureIdentifier × AtlasRect) × List (AtlasTextureIdentifier × Image))
  | [], _, rmap, ovf => .ok (rmap, ovf)
  | (id, tex) :: rest, packer, rmap, ovf =>
    if (lookupA id rmap).isSome then .error (.duplicateId id)
    else
      match packer.tryPack tex.width tex.height with
      | some (r, packer') =>
          buildGo pageSize strict rest packer'
            (rmap ++ [(id, AtlasRect.new pageSize (r.x, r.y, r.width, r.height))]) ovf
      | none =>
          if strict then .error .textureOverflow
          else buildGo pageSize strict rest packer rmap (ovf ++ [(id, tex)])

/-- `AtlasBuilder::build` from atlas.rs: sort the queue, run the packing
walk, and on success upload the composited page once (`upload_image`) and
return the atlas plus the overflow list.  The second component counts the
`upload_image` device calls performed (1 on success, 0 when an error
return happens before the upload is reached). -/
def AtlasBuilder.build (b : AtlasBuilder) (error_on_overflow : Bool) :
    Except AtlasError (Atlas × List (AtlasTextureIdentifier × Image)) × Nat :=
  let textures := sortByAreaDesc b.texture_queue
  let config : PackerConfig :=
    { width := b.size.1, height := b.size.2,
      border_padding := b.border_padding, rectangle_padding := b.rectangle_padding }
  match buildGo b.size error_on_overflow textures (Packer.new config) [] [] with
  | .error e => (.error e, 0)
  | .ok (rmap, ovf) =>
      (.ok ({ tex_id := 0, position_data := rmap, size := b.size }, ovf), 1)

/-- `AtlasBuilder::build_overflow` from atlas.rs. -/
def AtlasBuilder.build_overflow (b : AtlasBuilder) :
    Except AtlasError (Atlas × List (AtlasTextureIdentifier × Image)) × Nat :=
  b.build false

/-- `AtlasBuilder::build_strict` from atlas.rs: run the strict build and
keep only the atlas on success, propagating the error otherwise. -/
def AtlasBuilder.build_strict (b : AtlasBuilder) : Except AtlasError Atlas × Nat :=
  let (r, n) := b.build true
  match r with
  | .ok res => (.ok res.1, n)
  | .error e => (.error e, n)

/-- `AtlasSet` from atlas.rs. -/
structure AtlasSet where
  atlases : List Atlas
deriving DecidableEq, Repr

/-- `AtlasSet::has_texture` from atlas.rs: scan pages in order. -/
def AtlasSet.has_texture (s : AtlasSet) (id : AtlasTextureIdentifier) : Bool :=
  s.atlases.any (fun a => a.has_texture id)

/-- `AtlasSet::get_id_and_rect` from atlas.rs: first page containing the
identifier wins. -/
def AtlasSet.get_id_and_rect (s : AtlasSet) (id : AtlasTextureIdentifier) :
    Option (Nat × AtlasRect) :=
  match s.atlases.find? (fun a => a.has_texture id) with
  | some a => some (a.get_id, (a.get_rect id).getD { rect := (0,0,0,0), size := (0,0) })
  | none => none

/-- `AtlasSetBuilder` from atlas.rs. -/
structure AtlasSetBuilder where
  texture_queue : List (AtlasTextureIdentifier × Image)
  size : Nat × Nat
  border_padding : Nat
  rectangle_padding : Nat
  min_filter : MinFilter
  mag_filter : MagFilter
deriving DecidableEq, Repr

/-- `AtlasSetBuilder::new` from atlas.rs. -/
def AtlasSetBuilder.new (size : Nat × Nat) (border_padding rectangle_padding : Nat)
    (min_filter : MinFilter) (mag_filter : MagFilter) : AtlasSetBuilder :=
  { texture_queue := [], size := size, border_padding := border_padding,
    rectangle_padding := rectangle_padding, min_filter := min_filter,
    mag_filter := mag_filter }

/-- `AtlasSetBuilder::add` from atlas.rs: identical duplicate scan to
`AtlasBuilder::add`. -/
def AtlasSetBuilder.add (b : AtlasSetBuilder) (id : AtlasTextureIdentifier)
    (texture : Image) : Except AtlasError AtlasSetBuilder :=
  if b.texture_queue.any (fun t => t.1 == id) then
    .error (.duplicateId id)
  else
    .ok { b with texture_queue := b.texture_queue ++ [(id, texture)] }

/-- The fresh per-iteration `AtlasBuilder::new(...)` of
`AtlasSetBuilder::build`. -/
def AtlasSetBuilder.freshBuilder (b : AtlasSetBuilder) : AtlasBuilder :=
  AtlasBuilder.new b.size b.border_padding b.rectangle_padding b.min_filter b.mag_filter

/-- The `for tex in ts { builder.add(tex.0, tex.1).unwrap(); }` loop of
`AtlasSetBuilder::build`; the `unwrap` abort (duplicate in `ts`) is
modelled as `Except.error`. -/
def seedAll (b : AtlasBuilder) :
    List (AtlasTextureIdentifier × Image) → Except AtlasError AtlasBuilder
  | [] => .ok b
  | (id, img) :: rest =>
    match b.add id img with
    | .ok b' => seedAll b' rest
    | .error e => .error e

/-- An empty queue packs trivially: the walk returns an empty map and no
overflow, so `build_overflow` on a freshly seeded empty builder returns
the empty page with no leftovers. -/
theorem build_overflow_nil (b : AtlasSetBuilder) :
    (b.freshBuilder).build false =
      (.ok ({ tex_id := 0, position_data := [], size := b.size }, []), 1) :=
  rfl

/-- The `loop { ... }` of `AtlasSetBuilder::build` from atlas.rs,
translated faithfully including its binding bug: the body is

`mem::swap(&mut ts, &mut textures);` (drain the OUTER `textures`),
seed a fresh builder from `ts`,
`let (atlas, textures) = builder.build_overflow().unwrap();` —
this `let` introduces a NEW `textures` binding that shadows the outer one
for the rest of the body only, so the `if textures.is_empty()` check sees
the leftovers, but the next iteration's `mem::swap` reads the outer
`textures` again, which was left empty.  Hence the recursive call passes
`[]`: the leftovers are dropped.  The two `unwrap`s (on `add` and on
`build_overflow`) are modelled as `none` (abort).

First argument: the outer `textures`; second: `finalized`. -/
def setBuildLoop (proto : AtlasSetBuilder) :
    List (AtlasTextureIdentifier × Image) → List Atlas → Option (List Atlas)
  | txs, fin =>
    match hs : seedAll proto.freshBuilder txs with
    | .error _ => none
    | .ok builder =>
      match hb : builder.build false with
      | (.error _, _) => none
      | (.ok (atlas, leftovers), _) =>
        if h : leftovers = [] then some (fin ++ [atlas])
        else setBuildLoop proto [] (fin ++ [atlas])
  termination_by txs _ => txs.length
  decreasing_by
    simp only [List.length_nil]
    rcases txs with _ | ⟨t, rest⟩
    · exfalso
      have hseed : seedAll (AtlasSetBuilder.freshBuilder proto)
          ([] : List (AtlasTextureIdentifier × Image)) =
          .ok (AtlasSetBuilder.freshBuilder proto) := rfl
      rw [hseed] at hs
      cases hs
      rw [build_overflow_nil] at hb
      cases hb
      exact h rfl
    · exact Nat.succ_pos _

/-- `AtlasSetBuilder::build` from atlas.rs. -/
def AtlasSetBuilder.build (b : AtlasSetBuilder) : Option AtlasSet :=
  match setBuildLoop b b.texture_queue [] with
  | some pages => some { atlases := pages }
  | none => none

/-!
Part 3: auxiliary lemmas about the association-list operations and the
stable descending-area sort.
-/

theorem lookupA_eq_none_iff {κ ν : Type} [DecidableEq κ] (k : κ) (l : List (κ × ν)) :
    lookupA k l = none ↔ k ∉ l.map Prod.fst := by
  induction l with
  | nil => simp [lookupA]
  | cons p rest ih =>
    rcases p with ⟨k', v⟩
    by_cases hk : k' = k
    · simp [lookupA, hk]
    · simp only [lookupA, hk, if_false, List.map_cons, List.mem_cons]
      rw [ih]
      constructor
      · intro h hor
        rcases hor with hor | hor
        · exact hk hor.symm
        · exact h hor
      · intro h hmem
        exact h (Or.inr hmem)

theorem lookupA_append_of_none {κ ν : Type} [DecidableEq κ] (k : κ)
    (l1 l2 : List (κ × ν)) (h : lookupA k l1 = none) :
    lookupA k (l1 ++ l2) = lookupA k l2 := by
  induction l1 with
  | nil => rfl
  | cons p rest ih =>
    rcases p with ⟨k', v⟩
    by_cases hk : k' = k
    · rw [show lookupA k ((k', v) :: rest) = some v from by simp [lookupA, hk]] at h
      exact absurd h (by simp)
    · rw [show lookupA k ((k', v) :: rest) = lookupA k rest from by simp [lookupA, hk]] at h
      show lookupA k ((k', v) :: (rest ++ l2)) = lookupA k l2
      rw [show lookupA k ((k', v) :: (rest ++ l2)) = lookupA k (rest ++ l2) from by
        simp [lookupA, hk]]
      exact ih h

theorem insertByAreaDesc_perm (x : AtlasTextureIdentifier × Image)
    (l : List (AtlasTextureIdentifier × Image)) :
    List.Perm (insertByAreaDesc x l) (x :: l) := by
  induction l with
  | nil => exact List.Perm.refl _
  | cons y ys ih =>
    unfold insertByAreaDesc
    split
    · exact List.Perm.refl _
    · exact (ih.cons y).trans (List.Perm.swap x y ys)

theorem sortByAreaDesc_perm (l : List (AtlasTextureIdentifier × Image)) :
    List.Perm (sortByAreaDesc l) l := by
  induction l with
  | nil => exact List.Perm.refl _
  | cons x xs ih =>
    exact (insertByAreaDesc_perm x (sortByAreaDesc xs)).trans (ih.cons x)

theorem insertByAreaDesc_pairwise (x : AtlasTextureIdentifier × Image)
    (l : List (AtlasTextureIdentifier × Image))
    (h : l.Pairwise (fun a b => areaKey b ≤ areaKey a)) :
    (insertByAreaDesc x l).Pairwise (fun a b => areaKey b ≤ areaKey a) := by
  induction l with
  | nil => simp [insertByAreaDesc]
  | cons y ys ih =>
    rcases List.pairwise_cons.mp h with ⟨hy, hys⟩
    unfold insertByAreaDesc
    split
    · rename_i hle
      refine List.pairwise_cons.mpr ⟨?_, h⟩
      intro z hz
      rcases List.mem_cons.mp hz with hz' | hz'
      · exact hz' ▸ hle
      · exact le_trans (hy z hz') hle
    · rename_i hgt
      push_neg at hgt
      refine List.pairwise_cons.mpr ⟨?_, ih hys⟩
      intro z hz
      have hz' : z ∈ x :: ys := (insertByAreaDesc_perm x ys).mem_iff.mp hz
      rcases List.mem_cons.mp hz' with hz2 | hz2
      · exact hz2 ▸ le_of_lt hgt
      · exact hy z hz2

theorem sortByAreaDesc_pairwise (l : List (AtlasTextureIdentifier × Image)) :
    (sortByAreaDesc l).Pairwise (fun a b => areaKey b ≤ areaKey a) := by
  induction l with
  | nil => simp [sortByAreaDesc]
  | cons x xs ih => exact insertByAreaDesc_pairwise x _ ih

theorem insertByAreaDesc_filter (x : AtlasTextureIdentifier × Image)
    (l : List (AtlasTextureIdentifier × Image)) (k : Nat) :
    (insertByAreaDesc x l).filter (fun t => areaKey t == k)
      = (if areaKey x = k then [x] else [])
          ++ l.filter (fun t => areaKey t == k) := by
  induction l with
  | nil =>
    by_cases hx : areaKey x = k <;> simp [insertByAreaDesc, hx]
  | cons y ys ih =>
    unfold insertByAreaDesc
    split
    · rename_i hle
      by_cases hx : areaKey x = k <;> simp [hx]
    · rename_i hgt
      push_neg at hgt
      by_cases hy : areaKey y = k
      · have hx : ¬ areaKey x = k := by omega
        simp [List.filter_cons, hy, hx] at ih ⊢
        exact ih
      · simp [List.filter_cons, hy]
        exact ih

theorem sortByAreaDesc_filter (l : List (AtlasTextureIdentifier × Image)) (k : Nat) :
    (sortByAreaDesc l).filter (fun t => areaKey t == k)
      = l.filter (fun t => areaKey t == k) := by
  induction l with
  | nil => rfl
  | cons x xs ih =>
    show (insertByAreaDesc x (sortByAreaDesc xs)).filter _ = _
    rw [insertByAreaDesc_filter, ih, List.filter_cons]
    by_cases hx : areaKey x = k <;> simp [hx]

/-!
Part 4: lemmas about the packing walk `buildGo`.
-/

/-- The overflow accumulator of the tolerant walk only grows: the overflow
passed in comes back as a prefix of the final overflow list. -/
theorem buildGo_overflow_prefix (ps : Nat × Nat) :
    ∀ (l : List (AtlasTextureIdentifier × Image)) (p : Packer)
      (rmap : List (AtlasTextureIdentifier × AtlasRect))
      (ovf : List (AtlasTextureIdentifier × Image))
      (m : List (AtlasTextureIdentifier × AtlasRect))
      (o : List (AtlasTextureIdentifier × Image)),
      buildGo ps false l p rmap ovf = .ok (m, o) → ∃ o', o = ovf ++ o' := by
  intro l
  induction l with
  | nil =>
    intro p rmap ovf m o h
    simp only [buildGo, Except.ok.injEq, Prod.mk.injEq] at h
    exact ⟨[], by simp [h.2.symm]⟩
  | cons t rest ih =>
    rcases t with ⟨id, tex⟩
    intro p rmap ovf m o h
    simp only [buildGo] at h
    split at h
    · exact absurd h (by simp)
    · split at h
      · exact ih _ _ _ _ _ h
      · simp only [Bool.false_eq_true, if_false] at h
        obtain ⟨o', rfl⟩ := ih _ _ _ _ _ h
        exact ⟨(id, tex) :: o', by simp⟩

/-- If the tolerant walk finishes with no new overflow, the strict walk
runs through the identical placements and succeeds with the same map. -/
theorem buildGo_strict_of_no_overflow (ps : Nat × Nat) :
    ∀ (l : List (AtlasTextureIdentifier × Image)) (p : Packer)
      (rmap : List (AtlasTextureIdentifier × AtlasRect))
      (ovf : List (AtlasTextureIdentifier × Image))
      (m : List (AtlasTextureIdentifier × AtlasRect)),
      buildGo ps false l p rmap ovf = .ok (m, ovf) →
      ∀ ovf2, buildGo ps true l p rmap ovf2 = .ok (m, ovf2) := by
  intro l
  induction l with
  | nil =>
    intro p rmap ovf m h ovf2
    simp only [buildGo, Except.ok.injEq, Prod.mk.injEq] at h ⊢
    exact ⟨h.1, trivial⟩
  | cons t rest ih =>
    rcases t with ⟨id, tex⟩
    intro p rmap ovf m h ovf2
    simp only [buildGo] at h ⊢
    split at h
    · exact absurd h (by simp)
    · rename_i hdup
      rw [if_neg hdup]
      split at h
      · exact ih _ _ _ _ h ovf2
      · simp only [Bool.false_eq_true, if_false] at h
        obtain ⟨o', ho'⟩ := buildGo_overflow_prefix ps _ _ _ _ _ _ h
        exfalso
        have hlen := congrArg List.length ho'
        simp only [List.length_append, List.length_cons, List.length_nil] at hlen
        omega

/-- If the tolerant walk finishes with at least one new overflow item, the
strict walk aborts with `TextureOverflow`. -/
theorem buildGo_strict_overflow (ps : Nat × Nat) :
    ∀ (l : List (AtlasTextureIdentifier × Image)) (p : Packer)
      (rmap : List (AtlasTextureIdentifier × AtlasRect))
      (ovf : List (AtlasTextureIdentifier × Image))
      (m : List (AtlasTextureIdentifier × AtlasRect))
      (o : List (AtlasTextureIdentifier × Image)),
      buildGo ps false l p rmap ovf = .ok (m, o) → o ≠ ovf →
      ∀ ovf2, buildGo ps true l p rmap ovf2 = .error .textureOverflow := by
  intro l
  induction l with
  | nil =>
    intro p rmap ovf m o h hne _
    simp only [buildGo, Except.ok.injEq, Prod.mk.injEq] at h
    exact absurd h.2.symm hne
  | cons t rest ih =>
    rcases t with ⟨id, tex⟩
    intro p rmap ovf m o h hne ovf2
    simp only [buildGo] at h ⊢
    split at h
    · exact absurd h (by simp)
    · rename_i hdup
      rw [if_neg hdup]
      split at h
      · exact ih _ _ _ _ _ h hne ovf2
      · rfl

/-- With pairwise-distinct identifiers and a map that contains none of
them, the tolerant walk never takes its `DuplicateId` branch and returns
`Ok`. -/
theorem buildGo_ok_of_nodup (ps : Nat × Nat) :
    ∀ (l : List (AtlasTextureIdentifier × Image)) (p : Packer)
      (rmap : List (AtlasTextureIdentifier × AtlasRect))
      (ovf : List (AtlasTextureIdentifier × Image)),
      (l.map Prod.fst).Nodup →
      (∀ id ∈ l.map Prod.fst, lookupA id rmap = none) →
      ∃ m o, buildGo ps false l p rmap ovf = .ok (m, o) := by
  intro l
  induction l with
  | nil =>
    intro p rmap ovf _ _
    exact ⟨rmap, ovf, rfl⟩
  | cons t rest ih =>
    rcases t with ⟨id, tex⟩
    intro p rmap ovf hnd hfresh
    simp only [List.map_cons, List.nodup_cons] at hnd
    have hid : lookupA id rmap = none := hfresh id (by simp)
    simp only [buildGo, hid, Option.isSome_none, Bool.false_eq_true, if_false]
    split
    · rename_i r packer' hpack
      apply ih packer' _ ovf hnd.2
      intro id' hid'
      have hfresh' : lookupA id' rmap = none := hfresh id' (by simp [hid'])
      rw [lookupA_append_of_none id' rmap _ hfresh']
      have : id ≠ id' := fun he => hnd.1 (he ▸ hid')
      simp [lookupA, this]
    · exact ih p rmap _ hnd.2 fun id' hid' => hfresh id' (by simp [hid'])

/-- A placement returned by the (spec-modelled) packer always echoes the
requested dimensions, stays inside the page (keeping the border padding
clear of the far edges), and leaves the configuration unchanged. -/
theorem tryPack_bounds (p : Packer) (w h : Nat) (r : PackRect) (p' : Packer)
    (hp : p.tryPack w h = some (r, p')) :
    r.width = w ∧ r.height = h ∧
    r.x + w + p.config.border_padding ≤ p.config.width ∧
    r.y + h + p.config.border_padding ≤ p.config.height ∧
    p'.config = p.config := by
  unfold Packer.tryPack at hp
  dsimp only at hp
  split at hp
  · rename_i hcond
    simp only [Option.some.injEq, Prod.mk.injEq] at hp
    obtain ⟨hr, hp'⟩ := hp
    subst hr
    subst hp'
    exact ⟨rfl, rfl, hcond.1, hcond.2, rfl⟩
  · split at hp
    · rename_i hcond
      simp only [Option.some.injEq, Prod.mk.injEq] at hp
      obtain ⟨hr, hp'⟩ := hp
      subst hr
      subst hp'
      exact ⟨rfl, rfl, hcond.1, hcond.2, rfl⟩
    · exact absurd hp (by simp)

/-- An in-bounds placed rectangle: positive dimensions, contained in the
page, and carrying the page size (as rationals). -/
def GoodRect (ps : Nat × Nat) (r : AtlasRect) : Prop :=
  0 < r.rect.2.2.1 ∧ 0 < r.rect.2.2.2 ∧
  r.rect.1 + r.rect.2.2.1 ≤ ps.1 ∧ r.rect.2.1 + r.rect.2.2.2 ≤ ps.2 ∧
  r.size = ((ps.1 : Rat), (ps.2 : Rat))

/-- Every rectangle recorded by the packing walk is in bounds, provided
the queued images have positive dimensions and the packer is configured
with the page size. -/
theorem buildGo_rects_good (ps : Nat × Nat) (strict : Bool) :
    ∀ (l : List (AtlasTextureIdentifier × Image)) (p : Packer)
      (rmap : List (AtlasTextureIdentifier × AtlasRect))
      (ovf : List (AtlasTextureIdentifier × Image))
      (m : List (AtlasTextureIdentifier × AtlasRect))
      (o : List (AtlasTextureIdentifier × Image)),
      buildGo ps strict l p rmap ovf = .ok (m, o) →
      (∀ t ∈ l, 0 < t.2.width ∧ 0 < t.2.height) →
      p.config.width = ps.1 → p.config.height = ps.2 →
      (∀ e ∈ rmap, GoodRect ps e.2) →
      ∀ e ∈ m, GoodRect ps e.2 := by
  intro l
  induction l with
  | nil =>
    intro p rmap ovf m o h _ _ _ hgood
    simp only [buildGo, Except.ok.injEq, Prod.mk.injEq] at h
    exact h.1 ▸ hgood
  | cons t rest ih =>
    rcases t with ⟨id, tex⟩
    intro p rmap ovf m o h hpos hw hh hgood
    simp only [buildGo] at h
    split at h
    · exact absurd h (by simp)
    · split at h
      · rename_i r packer' hpack
        obtain ⟨hrw, hrh, hx, hy, hcfg⟩ := tryPack_bounds p tex.width tex.height r packer' hpack
        refine ih packer' _ ovf _ _ h (fun t ht => hpos t (by simp [ht]))
          (hcfg ▸ hw) (hcfg ▸ hh) ?_
        intro e he
        rcases List.mem_append.mp he with he' | he'
        · exact hgood e he'
        · have he2 : e = (id, AtlasRect.new ps (r.x, r.y, r.width, r.height)) := by
            simpa using he'
          subst he2
          obtain ⟨hposw, hposh⟩ := hpos (id, tex) (by simp)
          refine ⟨?_, ?_, ?_, ?_, rfl⟩
          · simpa [AtlasRect.new, hrw] using hposw
          · simpa [AtlasRect.new, hrh] using hposh
          · show r.x + r.width ≤ ps.1
            rw [hrw]
            omega
          · show r.y + r.height ≤ ps.2
            rw [hrh]
            omega
      · split at h
        · exact absurd h (by simp)
        · exact ih p rmap _ _ _ h (fun t ht => hpos t (by simp [ht])) hw hh hgood

/-- The uv inequalities of a `GoodRect`: nonnegative offsets, positive
normalized extents, and offset plus extent at most one, in both axes. -/
theorem uvs_bounds_of_good (ps : Nat × Nat) (r : AtlasRect) (hg : GoodRect ps r) :
    0 ≤ r.uvs.1 ∧ 0 < r.uvs.2.2.1 ∧ r.uvs.1 + r.uvs.2.2.1 ≤ 1 ∧
    0 ≤ r.uvs.2.1 ∧ 0 < r.uvs.2.2.2 ∧ r.uvs.2.1 + r.uvs.2.2.2 ≤ 1 := by
  obtain ⟨hw, hh, hxw, hyh, hsz⟩ := hg
  have hW : 0 < ps.1 := by omega
  have hH : 0 < ps.2 := by omega
  have hWQ : (0 : Rat) < (ps.1 : Rat) := by exact_mod_cast hW
  have hHQ : (0 : Rat) < (ps.2 : Rat) := by exact_mod_cast hH
  unfold AtlasRect.uvs
  rw [hsz]
  refine ⟨?_, ?_, ?_, ?_, ?_, ?_⟩
  · exact div_nonneg (by positivity) (le_of_lt hWQ)
  · exact div_pos (by exact_mod_cast hw) hWQ
  · rw [div_add_div_same, div_le_one hWQ]
    exact_mod_cast hxw
  · exact div_nonneg (by positivity) (le_of_lt hHQ)
  · exact div_pos (by exact_mod_cast hh) hHQ
  · rw [div_add_div_same, div_le_one hHQ]
    exact_mod_cast hyh

/-- `build_strict` expressed through the strict `build` run it wraps. -/
theorem build_strict_eq (b : AtlasBuilder) :
    b.build_strict =
      ((match (b.build true).1 with
        | .ok res => .ok res.1
        | .error e => .error e), (b.build true).2) := by
  unfold AtlasBuilder.build_strict
  rcases hb : b.build true with ⟨r, n⟩
  cases r <;> simp

/-!
Part 5: the claims.  Concrete scenario inputs first.
-/

/-- C1 scenario, pre-snapshot state: program 1 bound, uniform `"mvp"` set
to `f32 0` on it. -/
def c1Save : GlState :=
  ((GlState.new.use_program 1).1.set_uniform "mvp" (.f32 0)).1

/-- C1 scenario, state mutated after the snapshot was taken: the uniform
overwritten, depth test and blending enabled, program 2 and vao 3 bound
(five different state fields, as in the spec's scenario). -/
def c1Mut : GlState :=
  (((((c1Save.set_uniform "mvp" (.f32 7)).1.depth_test true).1.blending
      true).1.use_program 2).1.bind_vao 3).1

/-- C1 scenario, state after the snapshot is released. -/
def c1Restored : GlState := (snapshotRelease c1Save c1Mut).1

/-- C1: the claim says releasing a snapshot restores *every* field,
including per-program uniform values, and that a subsequent setter call
with a restored value issues zero device calls.  In fact `set_state`
(the whole of the snapshot's drop) never touches the uniform cache (its
body ends at `cull_face` with a `TODO: set the rest of the states`):
after the release, program/vao/depth/blend are restored but the uniform
`"mvp"` on program 1 still holds the post-snapshot value `f32 7`, and
re-setting it to the pre-snapshot value `f32 0` issues a device upload
instead of zero calls. -/
theorem C1_snapshot_restore_misses_uniforms :
    (c1Restored.program = c1Save.program ∧ c1Restored.vao = c1Save.vao ∧
     c1Restored.depth.enabled = c1Save.depth.enabled ∧
     c1Restored.blend.enabled = c1Save.blend.enabled) ∧
    lookupA "mvp" ((lookupA 1 c1Save.uniforms).getD []) = some (.f32 0) ∧
    lookupA "mvp" ((lookupA 1 c1Restored.uniforms).getD []) = some (.f32 7) ∧
    (c1Restored.set_uniform "mvp" (.f32 0)).2 = [.uniformUpload 1 "mvp" (.f32 0)] :=
  ⟨⟨rfl, rfl, rfl, rfl⟩, rfl, rfl, rfl⟩

/-- C2: the claim says every mutator that receives a new value issues one
device call and updates the cache, so an immediately repeated identical
call issues no device call.  `bind_fbo` (cited by the claim) issues the
call but never assigns the cache: starting from `GlState::new` (cached
fbo 0), `bind_fbo 1` issues one call yet leaves the cached fbo at 0, and
the immediately repeated `bind_fbo 1` issues a second device call where
the claim requires zero. -/
theorem C2_bind_fbo_never_updates_cache :
    (GlState.new.bind_fbo 1).2 = [.bindFramebuffer 1] ∧
    (GlState.new.bind_fbo 1).1.fbo = 0 ∧
    ((GlState.new.bind_fbo 1).1.bind_fbo 1).2 = [.bindFramebuffer 1] :=
  ⟨rfl, rfl, rfl⟩

/-- C7 scenario, the uniform value "A". -/
def c7A : GLUniform := .f32 5

/-- C7 scenario after: program 1 bound, `"mvp" := A` set (first call). -/
def c7Step2 : GlState × List GlCall :=
  (GlState.new.use_program 1).1.set_uniform "mvp" c7A

/-- C7 scenario after: program 2 bound, `"mvp" := A` set there (second
call). -/
def c7Step4 : GlState × List GlCall :=
  (c7Step2.1.use_program 2).1.set_uniform "mvp" c7A

/-- C7 scenario after: program 1 re-bound, `"mvp" := A` set again (third
call). -/
def c7Step6 : GlState × List GlCall :=
  (c7Step4.1.use_program 1).1.set_uniform "mvp" c7A

/-- C7: uniform caching is keyed per (program, name).  In the spec's
scenario the first and second `set_uniform` calls each issue one device
upload (the second because program 2's cache has no `"mvp"` entry, even
though an identical value exists under program 1) and the third issues
zero device calls (still cached from the first).  In general, a name
with no entry in the current program's cache always uploads on first
use. -/
theorem C7_uniform_cache_keyed_per_program :
    (c7Step2.2 = [.uniformUpload 1 "mvp" c7A] ∧
     c7Step4.2 = [.uniformUpload 2 "mvp" c7A] ∧
     c7Step6.2 = []) ∧
    ∀ (s : GlState) (uname : String) (v : GLUniform),
      lookupA uname ((lookupA s.program s.uniforms).getD []) = none →
      (s.set_uniform uname v).2 = [.uniformUpload s.program uname v] := by
  constructor
  · exact ⟨rfl, rfl, rfl⟩
  · intro s uname v hnone
    unfold GlState.set_uniform
    dsimp only
    rw [hnone]

/-- Witness for C7: on a fresh state (program 0, empty uniform cache) the
name `"u"` has no entry, and setting it issues exactly one upload. -/
theorem C7_witness :
    lookupA "u" ((lookupA GlState.new.program GlState.new.uniforms).getD []) = none ∧
    (GlState.new.set_uniform "u" (.f32 0)).2
      = [.uniformUpload GlState.new.program "u" (.f32 0)] :=
  ⟨rfl, C7_uniform_cache_keyed_per_program.2 GlState.new "u" (.f32 0) rfl⟩

/-- C9: `add` on an Atlas Builder or an Atlas Set Builder fails with
`DuplicateId` when the identifier is already queued (returning before the
queue is touched) and otherwise appends the pair to the queue. -/
theorem C9_add_duplicate_detected :
    (∀ (b : AtlasBuilder) (id : AtlasTextureIdentifier) (img : Image),
      (∃ p ∈ b.texture_queue, p.1 = id) →
      b.add id img = .error (.duplicateId id)) ∧
    (∀ (b : AtlasBuilder) (id : AtlasTextureIdentifier) (img : Image),
      (∀ p ∈ b.texture_queue, p.1 ≠ id) →
      b.add id img = .ok { b with texture_queue := b.texture_queue ++ [(id, img)] }) ∧
    (∀ (b : AtlasSetBuilder) (id : AtlasTextureIdentifier) (img : Image),
      (∃ p ∈ b.texture_queue, p.1 = id) →
      b.add id img = .error (.duplicateId id)) ∧
    (∀ (b : AtlasSetBuilder) (id : AtlasTextureIdentifier) (img : Image),
      (∀ p ∈ b.texture_queue, p.1 ≠ id) →
      b.add id img = .ok { b with texture_queue := b.texture_queue ++ [(id, img)] }) := by
  refine ⟨?_, ?_, ?_, ?_⟩
  · intro b id img hex
    unfold AtlasBuilder.add
    rw [if_pos]
    exact List.any_eq_true.mpr (by
      obtain ⟨p, hp, he⟩ := hex
      exact ⟨p, hp, beq_iff_eq.mpr he⟩)
  · intro b id img hall
    unfold AtlasBuilder.add
    rw [if_neg]
    intro hany
    obtain ⟨p, hp, he⟩ := List.any_eq_true.mp hany
    exact hall p hp (beq_iff_eq.mp he)
  · intro b id img hex
    unfold AtlasSetBuilder.add
    rw [if_pos]
    exact List.any_eq_true.mpr (by
      obtain ⟨p, hp, he⟩ := hex
      exact ⟨p, hp, beq_iff_eq.mpr he⟩)
  · intro b id img hall
    unfold AtlasSetBuilder.add
    rw [if_neg]
    intro hany
    obtain ⟨p, hp, he⟩ := List.any_eq_true.mp hany
    exact hall p hp (beq_iff_eq.mp he)

/-- A one-entry builder used to witness C9. -/
def cb9 : AtlasBuilder :=
  { size := (8, 8), texture_queue := [("a", ⟨1, 1⟩)], border_padding := 0,
    rectangle_padding := 0, min_filter := .nearest, mag_filter := .nearest }

/-- A one-entry set builder used to witness C9. -/
def csb9 : AtlasSetBuilder :=
  { texture_queue := [("a", ⟨1, 1⟩)], size := (8, 8), border_padding := 0,
    rectangle_padding := 0, min_filter := .nearest, mag_filter := .nearest }

/-- Witness for C9: re-adding `"a"` fails on both builders; adding the
fresh `"b"` succeeds and appends. -/
theorem C9_witness :
    cb9.add "a" ⟨2, 2⟩ = .error (.duplicateId "a") ∧
    cb9.add "b" ⟨2, 2⟩ = .ok { cb9 with texture_queue := cb9.texture_queue ++ [("b", ⟨2, 2⟩)] } ∧
    csb9.add "a" ⟨2, 2⟩ = .error (.duplicateId "a") :=
  ⟨C9_add_duplicate_detected.1 cb9 "a" ⟨2, 2⟩ ⟨("a", ⟨1, 1⟩), by simp [cb9], rfl⟩,
   C9_add_duplicate_detected.2.1 cb9 "b" ⟨2, 2⟩ (by
     intro p hp
     simp only [cb9, List.mem_singleton] at hp
     simp [hp]),
   C9_add_duplicate_detected.2.2.1 csb9 "a" ⟨2, 2⟩ ⟨("a", ⟨1, 1⟩), by simp [csb9], rfl⟩⟩

/-- C10: a queue with pairwise-distinct identifiers (as produced by
successful `add` calls) never triggers the defensive pack-time
`DuplicateId` branch, and `build_overflow` always returns `Ok` (with one
page upload), whatever fits or not. -/
theorem C10_build_overflow_total :
    ∀ (b : AtlasBuilder), (b.texture_queue.map Prod.fst).Nodup →
      ∃ a l, b.build_overflow = (.ok (a, l), 1) := by
  intro b hnd
  have hper : List.Perm ((sortByAreaDesc b.texture_queue).map Prod.fst)
      (b.texture_queue.map Prod.fst) := (sortByAreaDesc_perm b.texture_queue).map Prod.fst
  have hnd' : ((sortByAreaDesc b.texture_queue).map Prod.fst).Nodup :=
    hper.nodup_iff.mpr hnd
  obtain ⟨m, o, hw⟩ := buildGo_ok_of_nodup b.size (sortByAreaDesc b.texture_queue)
    (Packer.new { width := b.size.1, height := b.size.2,
                  border_padding := b.border_padding,
                  rectangle_padding := b.rectangle_padding })
    [] [] hnd' (fun id _ => rfl)
  refine ⟨{ tex_id := 0, position_data := m, size := b.size }, o, ?_⟩
  unfold AtlasBuilder.build_overflow AtlasBuilder.build
  dsimp only
  rw [hw]

/-- A two-entry distinct-identifier builder used to witness C10. -/
def cb10 : AtlasBuilder :=
  { size := (8, 8), texture_queue := [("a", ⟨1, 1⟩), ("b", ⟨2, 2⟩)],
    border_padding := 0, rectangle_padding := 0, min_filter := .nearest,
    mag_filter := .nearest }

/-- Witness for C10: the distinct two-element queue builds with `Ok`. -/
theorem C10_witness :
    (cb10.texture_queue.map Prod.fst).Nodup ∧
    ∃ a l, cb10.build_overflow = (.ok (a, l), 1) :=
  ⟨by decide, C10_build_overflow_total cb10 (by decide)⟩

/-- Every rectangle recorded by a successful `build` (either mode) is in
bounds, provided the queued images have positive dimensions. -/
theorem build_position_data_good (b : AtlasBuilder) (eo : Bool)
    (atlas : Atlas) (ovf : List (AtlasTextureIdentifier × Image)) (n : Nat)
    (h : b.build eo = (.ok (atlas, ovf), n))
    (hpos : ∀ t ∈ b.texture_queue, 0 < t.2.width ∧ 0 < t.2.height) :
    ∀ e ∈ atlas.position_data, GoodRect b.size e.2 := by
  unfold AtlasBuilder.build at h
  dsimp only at h
  split at h
  · exact absurd h (by simp)
  · rename_i rmap o heq
    simp only [Prod.mk.injEq, Except.ok.injEq] at h
    obtain ⟨⟨ha, _⟩, _⟩ := h
    rw [← ha]
    exact buildGo_rects_good b.size eo (sortByAreaDesc b.texture_queue) _ [] [] rmap o heq
      (fun t ht => hpos t ((sortByAreaDesc_perm b.texture_queue).mem_iff.mp ht))
      rfl rfl (by intro e he; exact absurd he (List.not_mem_nil e))

/-- C3 (amended): for every `AtlasRect` produced by a successful strict
build from non-zero-size images, the tuple yielded by `uvs` is the
normalized offset and extent `(x/W, y/H, width/W, height/H)` — not the
corner pair `(x/W, y/H, (x+width)/W, (y+height)/H)` the claim describes —
and it satisfies `0 ≤ u0`, `0 < du`, `u0 + du ≤ 1` (hence every component
lies in `[0, 1]`), and likewise on the v axis. -/
theorem C3_uv_offset_extent_bounds :
    ∀ (b : AtlasBuilder) (atlas : Atlas),
      (b.build_strict).1 = .ok atlas →
      (∀ t ∈ b.texture_queue, 0 < t.2.width ∧ 0 < t.2.height) →
      ∀ id r, (id, r) ∈ atlas.position_data →
        0 ≤ r.uvs.1 ∧ 0 < r.uvs.2.2.1 ∧ r.uvs.1 + r.uvs.2.2.1 ≤ 1 ∧
        0 ≤ r.uvs.2.1 ∧ 0 < r.uvs.2.2.2 ∧ r.uvs.2.1 + r.uvs.2.2.2 ≤ 1 := by
  intro b atlas hok hpos id r hmem
  rw [build_strict_eq] at hok
  dsimp only at hok
  rcases hq : (b.build true).1 with e | res
  · rw [hq] at hok
    exact absurd hok (by simp)
  · rw [hq] at hok
    simp only [Except.ok.injEq] at hok
    rcases res with ⟨a2, ovf⟩
    have hb : b.build true = (.ok (a2, ovf), (b.build true).2) := by
      rw [← hq]
    have hgood := build_position_data_good b true a2 ovf (b.build true).2 hb hpos
    have : GoodRect b.size r := by
      have := hgood (id, r) (by rw [show a2 = atlas from hok]; exact hmem)
      simpa using this
    exact uvs_bounds_of_good b.size r this

/-- The C3 scenario builder: an 8×8 page, no padding, a 5×5 and a 2×2
image. -/
def cb3 : AtlasBuilder :=
  { size := (8, 8), texture_queue := [("a", ⟨5, 5⟩), ("b", ⟨2, 2⟩)],
    border_padding := 0, rectangle_padding := 0, min_filter := .nearest,
    mag_filter := .nearest }

/-- The rectangle the build assigns to `"b"`: placed at x = 5 next to the
5×5 image. -/
def cRect3b : AtlasRect := { rect := (5, 0, 2, 2), size := (8, 8) }

/-- The atlas produced by `cb3.build_strict`. -/
def cAtlas3 : Atlas :=
  { tex_id := 0,
    position_data := [("a", { rect := (0, 0, 5, 5), size := (8, 8) }), ("b", cRect3b)],
    size := (8, 8) }

/-- Counterexample to C3 as stated: in a successful strict build from
non-zero-size images, the rectangle placed for `"b"` at `(5, 0, 2, 2)` on
the 8×8 page yields `uvs = (5/8, 0, 1/4, 1/4)`: its third component is
`width/W = 1/4`, not `(x+width)/W = 7/8`, and `u0 < u1` fails
(`5/8 ≥ 1/4`). -/
theorem C3_counterexample :
    (cb3.build_strict).1 = .ok cAtlas3 ∧
    (∀ t ∈ cb3.texture_queue, 0 < t.2.width ∧ 0 < t.2.height) ∧
    ("b", cRect3b) ∈ cAtlas3.position_data ∧
    cRect3b.uvs.1 = (5 : Rat) / 8 ∧
    cRect3b.uvs.2.2.1 = (1 : Rat) / 4 ∧
    ¬ cRect3b.uvs.1 < cRect3b.uvs.2.2.1 ∧
    cRect3b.uvs.2.2.1 ≠ ((5 + 2 : Nat) : Rat) / 8 := by
  refine ⟨rfl, by decide, by simp [cAtlas3], ?_, ?_, ?_, ?_⟩ <;>
    norm_num [cRect3b, AtlasRect.uvs]

/-- Witness for C3 (amended): the bounds hold for the rectangle of `"b"`
in the concrete built atlas. -/
theorem C3_witness :
    ("b", cRect3b) ∈ cAtlas3.position_data ∧
    (0 ≤ cRect3b.uvs.1 ∧ 0 < cRect3b.uvs.2.2.1 ∧
     cRect3b.uvs.1 + cRect3b.uvs.2.2.1 ≤ 1 ∧
     0 ≤ cRect3b.uvs.2.1 ∧ 0 < cRect3b.uvs.2.2.2 ∧
     cRect3b.uvs.2.1 + cRect3b.uvs.2.2.2 ≤ 1) :=
  ⟨by simp [cAtlas3],
   C3_uv_offset_extent_bounds cb3 cAtlas3 rfl (by decide) "b" cRect3b (by simp [cAtlas3])⟩

/-- C4: when the overflow-tolerant walk places every queued image (no
leftovers), the strict build succeeds and returns the built atlas — this
revision's `build_strict` forwards the `Ok`, it does not fail
unconditionally. -/
theorem C4_build_strict_succeeds_when_all_fit :
    ∀ (b : AtlasBuilder) (a : Atlas),
      (b.build_overflow).1 = .ok (a, []) →
      (b.build_strict).1 = .ok a := by
  intro b a h
  unfold AtlasBuilder.build_overflow AtlasBuilder.build at h
  dsimp only at h
  split at h
  · exact absurd h (by simp)
  · rename_i rmap o heq
    simp only [Except.ok.injEq, Prod.mk.injEq] at h
    obtain ⟨ha, ho⟩ := h
    subst ho
    have hstrict := buildGo_strict_of_no_overflow b.size _ _ _ _ _ heq []
    have hb : b.build true =
        (.ok ({ tex_id := 0, position_data := rmap, size := b.size }, []), 1) := by
      unfold AtlasBuilder.build
      dsimp only
      rw [hstrict]
    rw [build_strict_eq, hb, ← ha]

/-- The C4 witness builder: one 2×2 image on an 8×8 page. -/
def cb4 : AtlasBuilder :=
  { size := (8, 8), texture_queue := [("a", ⟨2, 2⟩)], border_padding := 0,
    rectangle_padding := 0, min_filter := .nearest, mag_filter := .nearest }

/-- The atlas `cb4` builds. -/
def cAtlas4 : Atlas :=
  { tex_id := 0, position_data := [("a", { rect := (0, 0, 2, 2), size := (8, 8) })],
    size := (8, 8) }

/-- Witness for C4: everything fits, and `build_strict` returns the
atlas. -/
theorem C4_witness :
    (cb4.build_overflow).1 = .ok (cAtlas4, []) ∧ (cb4.build_strict).1 = .ok cAtlas4 :=
  ⟨rfl, C4_build_strict_succeeds_when_all_fit cb4 cAtlas4 rfl⟩

/-- A fresh packer cannot place a request that exceeds the page in either
dimension once the border padding is subtracted. -/
theorem tryPack_fresh_none (c : PackerConfig) (w h : Nat)
    (hbig : c.width < w + 2 * c.border_padding ∨ c.height < h + 2 * c.border_padding) :
    (Packer.new c).tryPack w h = none := by
  unfold Packer.new Packer.tryPack
  dsimp only
  rw [if_neg (by omega), if_neg (by omega)]

/-- C5: if any queued image fails to fit, `build_strict` fails with
`TextureOverflow` and performs zero device uploads (the error return
happens before `upload_image` is reached, and no atlas value exists); in
particular a single queued image larger than the page in either
dimension (minus the border padding) fails this way. -/
theorem C5_strict_overflow_aborts_without_upload :
    (∀ (b : AtlasBuilder) (a : Atlas) (l : List (AtlasTextureIdentifier × Image)),
      (b.build_overflow).1 = .ok (a, l) → l ≠ [] →
      b.build_strict = (.error .textureOverflow, 0)) ∧
    (∀ (sz : Nat × Nat) (bp rp : Nat) (mf : MinFilter) (gf : MagFilter)
       (id : AtlasTextureIdentifier) (img : Image),
      (sz.1 < img.width + 2 * bp ∨ sz.2 < img.height + 2 * bp) →
      AtlasBuilder.build_strict ⟨sz, [(id, img)], bp, rp, mf, gf⟩
        = (.error .textureOverflow, 0)) := by
  constructor
  · intro b a l h hne
    unfold AtlasBuilder.build_overflow AtlasBuilder.build at h
    dsimp only at h
    split at h
    · exact absurd h (by simp)
    · rename_i rmap o heq
      simp only [Except.ok.injEq, Prod.mk.injEq] at h
      obtain ⟨_, ho⟩ := h
      subst ho
      have hstrict := buildGo_strict_overflow b.size _ _ _ _ _ _ heq hne []
      have hb : b.build true = (.error .textureOverflow, 0) := by
        unfold AtlasBuilder.build
        dsimp only
        rw [hstrict]
      rw [build_strict_eq, hb]
  · intro sz bp rp mf gf id img hbig
    have hpack : (Packer.new { width := sz.1, height := sz.2, border_padding := bp, rectangle_padding := rp }).tryPack img.width img.height = none :=
      tryPack_fresh_none _ _ _ hbig
    have hwalk : buildGo sz true [(id, img)]
        (Packer.new { width := sz.1, height := sz.2, border_padding := bp, rectangle_padding := rp }) [] [] = .error .textureOverflow := by
      simp only [buildGo, lookupA, Option.isSome_none, Bool.false_eq_true, if_false, hpack,
        if_true]
    have hb : AtlasBuilder.build ⟨sz, [(id, img)], bp, rp, mf, gf⟩ true
        = (.error .textureOverflow, 0) := by
      unfold AtlasBuilder.build
      dsimp only
      rw [show sortByAreaDesc [(id, img)] = [(id, img)] from rfl, hwalk]
    rw [build_strict_eq, hb]

/-- The C5 witness builder: one 9×9 image cannot fit the 8×8 page. -/
def cb5 : AtlasBuilder :=
  { size := (8, 8), texture_queue := [("a", ⟨9, 9⟩)], border_padding := 0,
    rectangle_padding := 0, min_filter := .nearest, mag_filter := .nearest }

/-- The empty page `cb5`'s tolerant build produces. -/
def cAtlas5 : Atlas := { tex_id := 0, position_data := [], size := (8, 8) }

/-- Witness for C5: the tolerant build reports the 9×9 image as leftover,
and the strict build fails with `TextureOverflow` and zero uploads; the
single-oversized-image special case fails the same way. -/
theorem C5_witness :
    (cb5.build_overflow).1 = .ok (cAtlas5, [("a", ⟨9, 9⟩)]) ∧
    cb5.build_strict = (.error .textureOverflow, 0) ∧
    AtlasBuilder.build_strict ⟨(8, 8), [("big", ⟨9, 1⟩)], 0, 0, .nearest, .nearest⟩
      = (.error .textureOverflow, 0) :=
  ⟨rfl,
   C5_strict_overflow_aborts_without_upload.1 cb5 cAtlas5 [("a", ⟨9, 9⟩)] rfl (by simp),
   C5_strict_overflow_aborts_without_upload.2 (8, 8) 0 0 .nearest .nearest "big" ⟨9, 1⟩
     (Or.inl (by decide))⟩

/-- C8 (amended): when no queued image's pixel area overflows the u32
multiplication in `tex_sorter` (area < 2^32), the sorted queue is a
permutation of the queue, pixel areas are non-increasing along it, and
equal-area items keep their original relative order (the subsequence of
any fixed area is unchanged). -/
theorem C8_sort_descending_stable :
    ∀ (q : List (AtlasTextureIdentifier × Image)),
      (∀ t ∈ q, t.2.width * t.2.height < 4294967296) →
      List.Perm (sortByAreaDesc q) q ∧
      (sortByAreaDesc q).Pairwise
        (fun a b => b.2.width * b.2.height ≤ a.2.width * a.2.height) ∧
      (∀ n : Nat, (sortByAreaDesc q).filter (fun t => t.2.width * t.2.height == n)
          = q.filter (fun t => t.2.width * t.2.height == n)) := by
  intro q hnof
  have hkey : ∀ t ∈ q, areaKey t = t.2.width * t.2.height := by
    intro t ht
    exact Nat.mod_eq_of_lt (hnof t ht)
  have hper := sortByAreaDesc_perm q
  refine ⟨hper, ?_, ?_⟩
  · have hiff : ∀ {a b : AtlasTextureIdentifier × Image},
        a ∈ sortByAreaDesc q → b ∈ sortByAreaDesc q →
        ((fun a b => areaKey b ≤ areaKey a) a b ↔
         (fun a b => b.2.width * b.2.height ≤ a.2.width * a.2.height) a b) := by
      intro a b ha hb
      show areaKey b ≤ areaKey a ↔ b.2.width * b.2.height ≤ a.2.width * a.2.height
      rw [hkey a (hper.mem_iff.mp ha), hkey b (hper.mem_iff.mp hb)]
    exact (List.Pairwise.iff_of_mem hiff).mp (sortByAreaDesc_pairwise q)
  · intro n
    have h1 : (sortByAreaDesc q).filter (fun t => t.2.width * t.2.height == n)
        = (sortByAreaDesc q).filter (fun t => areaKey t == n) :=
      List.filter_congr (by
        intro t ht
        rw [hkey t (hper.mem_iff.mp ht)])
    have h2 : q.filter (fun t => t.2.width * t.2.height == n)
        = q.filter (fun t => areaKey t == n) :=
      List.filter_congr (by
        intro t ht
        rw [hkey t ht])
    rw [h1, h2, sortByAreaDesc_filter]

/-- The C8 counterexample queue: a 65536×65536 image whose pixel area
2^32 wraps to 0 in the u32 multiplication, followed by a 1×1 image. -/
def cq8big : List (AtlasTextureIdentifier × Image) :=
  [("big", ⟨65536, 65536⟩), ("small", ⟨1, 1⟩)]

/-- Counterexample to C8 as stated: sorting `cq8big` puts the 1×1 image
first because the 65536×65536 image's wrapped u32 area is 0, so the true
pixel areas along the sorted queue are 1 then 2^32 — strictly increasing,
not non-increasing. -/
theorem C8_counterexample :
    sortByAreaDesc cq8big = [("small", ⟨1, 1⟩), ("big", ⟨65536, 65536⟩)] ∧
    ¬ (sortByAreaDesc cq8big).Pairwise
        (fun a b => b.2.width * b.2.height ≤ a.2.width * a.2.height) := by
  constructor
  · rfl
  · intro hp
    rw [show sortByAreaDesc cq8big
        = [("small", (⟨1, 1⟩ : Image)), ("big", ⟨65536, 65536⟩)] from rfl] at hp
    have := (List.pairwise_cons.mp hp).1 ("big", ⟨65536, 65536⟩) (by simp)
    norm_num at this

/-- The C8 witness queue: areas 4, 3, 4 with two equal-area entries. -/
def cq8w : List (AtlasTextureIdentifier × Image) :=
  [("a", ⟨2, 2⟩), ("b", ⟨1, 3⟩), ("c", ⟨2, 2⟩)]

/-- Witness for C8 (amended): on the small queue, the sort is a
permutation and the equal-area entries `"a"`, `"c"` keep their order. -/
theorem C8_witness :
    List.Perm (sortByAreaDesc cq8w) cq8w ∧
    (sortByAreaDesc cq8w).filter (fun t => t.2.width * t.2.height == 4)
      = cq8w.filter (fun t => t.2.width * t.2.height == 4) := by
  have h := C8_sort_descending_stable cq8w (by decide)
  exact ⟨h.1, h.2.2 4⟩

/-- The C6 failing input: a 4×4 page and two 3×3 images.  Each image is
individually smaller than the page (minus the zero padding), but no
packer can place both on one page: their combined area, 18 pixels,
exceeds the page's 16. -/
def csb6 : AtlasSetBuilder :=
  { texture_queue := [("a", ⟨3, 3⟩), ("b", ⟨3, 3⟩)], size := (4, 4),
    border_padding := 0, rectangle_padding := 0, min_filter := .nearest,
    mag_filter := .nearest }

/-- The first page of the C6 scenario, holding only `"a"`. -/
def cPage6 : Atlas :=
  { tex_id := 0, position_data := [("a", { rect := (0, 0, 3, 3), size := (4, 4) })],
    size := (4, 4) }

/-- The second page of the C6 scenario: empty, because the loop's second
iteration drains the already-emptied outer queue. -/
def cEmpty6 : Atlas := { tex_id := 0, position_data := [], size := (4, 4) }

/-- C6: the claim says that for images individually smaller than the
page, the set build terminates with zero leftovers and every identifier
on exactly one page.  The build does terminate, but the
`let (atlas, textures) = builder.build_overflow().unwrap();` inside the
loop SHADOWS the outer `textures`, so the leftovers are dropped: on two
3×3 images and a 4×4 page the result is two pages — one holding `"a"`,
one empty — and `"b"` appears on no page at all. -/
theorem C6_set_build_drops_leftovers :
    csb6.build = some { atlases := [cPage6, cEmpty6] } ∧
    (∀ t ∈ csb6.texture_queue,
      t.2.width + 2 * csb6.border_padding ≤ csb6.size.1 ∧
      t.2.height + 2 * csb6.border_padding ≤ csb6.size.2) ∧
    AtlasSet.has_texture { atlases := [cPage6, cEmpty6] } "b" = false := by
  refine ⟨?_, by decide, by decide⟩
  have h1 : setBuildLoop csb6 csb6.texture_queue [] = setBuildLoop csb6 [] [cPage6] := by
    rw [setBuildLoop.eq_def]
    rfl
  have h2 : setBuildLoop csb6 [] [cPage6] = some [cPage6, cEmpty6] := by
    rw [setBuildLoop.eq_def]
    rfl
  show AtlasSetBuilder.build csb6 = _
  unfold AtlasSetBuilder.build
  rw [h1, h2]

end RenderForge
